import Mathlib

/-
Verification of the proximity-based session-lock controller in
src/bluelock.go (repository samhardeman/bluetooth-unlock).

The file shallowly embeds the program:

* `PingBluetoothDevice` (bluelock.go lines 87-130): the RSSI sampling
  routine.  Its input space is modelled by `ToolOutcome`: either the
  external `hcitool` invocation fails (`execError`, cmd.Run() returning a
  non-nil error), or it succeeds and yields an output string.  The Go
  string operations used by the parser (strings.Contains, strings.Split,
  strings.TrimSpace, strconv.Atoi) are reimplemented over `List Char`
  with structural recursion so that every definition evaluates inside the
  kernel.
* `MonitorBluetooth` (bluelock.go lines 133-175): the polling loop.  One
  iteration of the `for` body is `monitorCycle`; the loop over a finite
  list of cycle inputs (tool outcome paired with the `time.Now()` value
  observed by that iteration) is `monitorRunFrom` / `MonitorBluetooth`.
  Timestamps and durations are `Int` nanoseconds, matching Go's
  `time.Duration` unit.
* `InitializeConfig` (bluelock.go second variant, lines 227-254 of the
  concatenated source): only the pure fallback logic applied to an
  already-loaded configuration is modelled (the file I/O around it is
  excluded plumbing).
-/

namespace Bluelock

/-! ## Go string primitives, over `List Char` -/

/-- Go `unicode.IsSpace` restricted to the Latin-1 range (space, \t, \n,
vertical tab, form feed, \r, NEL, NBSP).  The Unicode `Zs` code points
above U+00FF accepted by Go are not modelled; no claim depends on them. -/
def isGoSpace (c : Char) : Bool :=
  c = ' ' || c = '\t' || c = '\n' || c = '\x0B' || c = '\x0C' || c = '\r' ||
  c = '\x85' || c = '\xA0'

/-- Go `strings.TrimSpace`: drop leading and trailing white space. -/
def goTrimChars (l : List Char) : List Char :=
  ((l.dropWhile isGoSpace).reverse.dropWhile isGoSpace).reverse

/-- Does `p` occur at the head of `l`?  (Helper for substring search.) -/
def charsLead : List Char → List Char → Bool
  | [], _ => true
  | _ :: _, [] => false
  | p :: ps, c :: cs => p = c && charsLead ps cs

/-- Go `strings.Contains pat` over char lists: `p` occurs somewhere in `l`. -/
def charsHave : List Char → List Char → Bool
  | p, [] => charsLead p []
  | p, c :: cs => charsLead p (c :: cs) || charsHave p cs

/-- Go `strings.Split l sep` for a one-character separator: the list of
maximal separator-free segments (always non-empty; `[[]]` on `[]`). -/
def splitOnChar (sep : Char) : List Char → List (List Char)
  | [] => [[]]
  | c :: cs =>
    let r := splitOnChar sep cs
    if c = sep then [] :: r
    else
      match r with
      | [] => [[c]]
      | h :: rest => (c :: h) :: rest

/-- Decimal value of a digit list (most significant first). -/
def digitsVal (l : List Char) : Nat :=
  l.foldl (fun a c => a * 10 + (c.toNat - 48)) 0

/-- Go `strconv.Atoi`: optional sign, then a non-empty run of decimal
digits, with the int64 range check (`ErrRange` is a non-nil error, hence
`none` here).  Anything else fails to parse. -/
def goAtoiChars (l : List Char) : Option Int :=
  let p : Bool × List Char :=
    match l with
    | '-' :: rest => (true, rest)
    | '+' :: rest => (false, rest)
    | other => (false, other)
  if p.2 = [] then none
  else if p.2.all (fun c => decide ('0' ≤ c) && decide (c ≤ '9')) then
    let n : Nat := digitsVal p.2
    let v : Int := if p.1 then -(n : Int) else (n : Int)
    if v < -(2 ^ 63) ∨ 2 ^ 63 - 1 < v then none else some v
  else none

/-! ## Configuration (bluelock.go lines 14-35 and 204-225) -/

/-- The configuration record (`Config` struct / the flag globals).
`CheckInterval` and `SessionTimeout` are `time.Duration` nanosecond
counts, modelled as `Int`. -/
structure Config where
  BluetoothDeviceAddress : String
  CheckInterval : Int
  CheckRepeat : Int
  LockRSSI : Int
  UnlockRSSI : Int
  DesktopEnv : String
  SessionTimeout : Int
  Debug : Bool
  deriving DecidableEq

def defaultBluetoothDeviceAddress : String := "XX:XX:XX:XX:XX:XX"

/-- 5 * time.Second, in nanoseconds. -/
def defaultCheckInterval : Int := 5000000000

def defaultCheckRepeat : Int := 3

def defaultLockRSSI : Int := -14

def defaultUnlockRSSI : Int := -14

def defaultDesktopEnv : String := "CINNAMON"

/-- 30 * time.Minute, in nanoseconds. -/
def defaultSessionTimeout : Int := 1800000000000

def defaultDebug : Bool := true

/-- The `DefaultConfig` value (bluelock.go lines 216-225). -/
def DefaultConfig : Config :=
  ⟨defaultBluetoothDeviceAddress, defaultCheckInterval, defaultCheckRepeat,
   defaultLockRSSI, defaultUnlockRSSI, defaultDesktopEnv,
   defaultSessionTimeout, defaultDebug⟩

/-- The pure fallback step of `InitializeConfig` (bluelock.go lines
243-251): a zero `CheckInterval` or a zero `SessionTimeout` in the loaded
configuration is replaced by the default value. -/
def InitializeConfig (c : Config) : Config :=
  ⟨c.BluetoothDeviceAddress,
   (if c.CheckInterval = 0 then defaultCheckInterval else c.CheckInterval),
   c.CheckRepeat, c.LockRSSI, c.UnlockRSSI, c.DesktopEnv,
   (if c.SessionTimeout = 0 then defaultSessionTimeout else c.SessionTimeout),
   c.Debug⟩

/-! ## Sampling (`PingBluetoothDevice`, bluelock.go lines 87-130) -/

/-- Outcome of the external `hcitool rssi <addr>` invocation: either
`cmd.Run()` returns a non-nil error (`execError`), or the tool runs and
produces `output` on stdout+stderr. -/
inductive ToolOutcome
  | execError
  | output (out : String)
  deriving DecidableEq

/-- The pair returned by `PingBluetoothDevice`: the `bool` result and
whether the returned `error` is non-nil. -/
structure PingRet where
  inRange : Bool
  err : Bool
  deriving DecidableEq

/-- The marker substring searched for in the tool output. -/
def rssiMarkerStr : String := "RSSI return value"

def rssiMarker : List Char := rssiMarkerStr.toList

/-- The threshold comparison block of `PingBluetoothDevice` (bluelock.go
lines 119-124 plus the fall-through `return false, nil` at line 129,
which is also reached when the value lies strictly between the two
thresholds). -/
def classifyRssi (cfg : Config) (rssi : Int) : Bool :=
  if cfg.UnlockRSSI ≤ rssi then true
  else if rssi ≤ cfg.LockRSSI then false
  else false

/-- `PingBluetoothDevice` (bluelock.go lines 87-130).  A failed tool run
returns `(false, nil)` ("Return false to indicate that the device is out
of range").  On success the output is scanned for the RSSI marker; a
missing marker or a colon-free output returns `(false, nil)`; a value
that fails `strconv.Atoi` returns `(false, err)` — the only non-nil
error; otherwise the parsed value is compared against the thresholds. -/
def PingBluetoothDevice (cfg : Config) (t : ToolOutcome) : PingRet :=
  match t with
  | ToolOutcome.execError => ⟨false, false⟩
  | ToolOutcome.output out =>
    let chars := out.toList
    if charsHave rssiMarker chars then
      let parts := splitOnChar ':' chars
      if parts.length < 2 then ⟨false, false⟩
      else
        match goAtoiChars (goTrimChars (parts.getD 1 [])) with
        | none => ⟨false, true⟩
        | some rssi => ⟨classifyRssi cfg rssi, false⟩
    else ⟨false, false⟩

/-- `t` is a tool outcome whose output carries a parseable RSSI line with
value `v`: the marker is present, a colon follows, and the trimmed text
after the first colon parses as the integer `v`.  This is the shape the
spec calls an `InRange(v)` reading. -/
def rssiParsed (t : ToolOutcome) (v : Int) : Bool :=
  match t with
  | ToolOutcome.execError => false
  | ToolOutcome.output out =>
    charsHave rssiMarker out.toList &&
    decide (2 ≤ (splitOnChar ':' out.toList).length) &&
    decide (goAtoiChars (goTrimChars ((splitOnChar ':' out.toList).getD 1 [])) = some v)

/-! ## The monitor (`MonitorBluetooth`, bluelock.go lines 133-175) -/

/-- The `mode` string variable, as a closed enumeration. -/
inductive Mode
  | locked
  | unlocked
  deriving DecidableEq

/-- The monitor's mutable state: `mode` and `lastUnlockedTime`. -/
structure MState where
  mode : Mode
  lastUnlockedTime : Int
  deriving DecidableEq

/-- An actuator invocation: `LockSystem` or `UnlockSystem`. -/
inductive Action
  | lock
  | unlock
  deriving DecidableEq

/-- Observable result of one iteration of the monitor loop: the state
after the iteration, the actuator calls made (in order), and whether
`time.Sleep(CheckInterval)` ran (`continue` on a sampling error skips
it). -/
structure CycleOut where
  state : MState
  actions : List Action
  slept : Bool
  deriving DecidableEq

/-- One iteration of the `for` body of `MonitorBluetooth` (bluelock.go
lines 138-173).  `t` is this iteration's tool outcome and `now` the value
`time.Now()` read at line 145.  A non-nil sampling error hits the
`continue` at line 142: no state change, no actuator call, no sleep.
Otherwise the three `if` blocks run in order: the in-range/out-of-range
pair (lines 148-156), the (unreachable) second disconnect check (lines
159-163), and the session-timeout check (lines 166-170). -/
def monitorCycle (cfg : Config) (st : MState) (t : ToolOutcome) (now : Int) : CycleOut :=
  let p := PingBluetoothDevice cfg t
  if p.err then
    ⟨st, [], false⟩
  else
    let s1 : MState × List Action :=
      if p.inRange = true ∧ st.mode = Mode.locked then
        (⟨Mode.unlocked, now⟩, [Action.unlock])
      else if p.inRange = false ∧ st.mode = Mode.unlocked then
        (⟨Mode.locked, st.lastUnlockedTime⟩, [Action.lock])
      else (st, [])
    let s2 : MState × List Action :=
      if p.inRange = false ∧ s1.1.mode = Mode.unlocked then
        (⟨Mode.locked, s1.1.lastUnlockedTime⟩, s1.2 ++ [Action.lock])
      else s1
    let s3 : MState × List Action :=
      if s2.1.mode = Mode.unlocked ∧ now - s2.1.lastUnlockedTime > cfg.SessionTimeout then
        (⟨Mode.locked, s2.1.lastUnlockedTime⟩, s2.2 ++ [Action.lock])
      else s2
    ⟨s3.1, s3.2, true⟩

/-- Run of the monitor loop from state `st` over a finite list of cycle
inputs, collecting all actuator calls in order. -/
def monitorRunFrom (cfg : Config) : MState → List (ToolOutcome × Int) → MState × List Action
  | st, [] => (st, [])
  | st, (t, now) :: rest =>
    let c := monitorCycle cfg st t now
    let r := monitorRunFrom cfg c.state rest
    (r.1, c.actions ++ r.2)

/-- `MonitorBluetooth` (bluelock.go lines 133-175): the state is created
once, with `mode = "locked"` and `lastUnlockedTime = time.Now()`
(`startTime`), and the loop then processes the cycle inputs. -/
def MonitorBluetooth (cfg : Config) (startTime : Int)
    (inputs : List (ToolOutcome × Int)) : MState × List Action :=
  monitorRunFrom cfg ⟨Mode.locked, startTime⟩ inputs

/-! ## Concrete fixtures used by witnesses and counterexamples -/

/-- A well-formed tool output whose RSSI value is 0. -/
def lineZero : String := "RSSI return value: 0"

/-- A well-formed tool output whose RSSI value is -65. -/
def lineGap : String := "RSSI return value: -65"

/-- A tool output whose RSSI field fails integer parsing. -/
def lineBad : String := "RSSI return value: x"

/-- The default configuration with a genuine hysteresis gap:
`LockRSSI = -70 < UnlockRSSI = -60`. -/
def cfgGap : Config :=
  ⟨defaultBluetoothDeviceAddress, defaultCheckInterval, defaultCheckRepeat,
   -70, -60, defaultDesktopEnv, defaultSessionTimeout, defaultDebug⟩

/-- The default configuration with `SessionTimeout = 0`. -/
def cfgZeroTimeout : Config :=
  ⟨defaultBluetoothDeviceAddress, defaultCheckInterval, defaultCheckRepeat,
   defaultLockRSSI, defaultUnlockRSSI, defaultDesktopEnv, 0, defaultDebug⟩

/-! ## Characterization of one cycle -/

/-- Case-by-case description of one monitor iteration, as a function of
the sampling result.  Proved equal to `monitorCycle` below; this is a
proof device, not part of the embedding. -/
def cycleSpec (cfg : Config) (st : MState) (p : PingRet) (now : Int) : CycleOut :=
  if p.err then ⟨st, [], false⟩
  else if p.inRange then
    match st.mode with
    | Mode.locked =>
      if (0 : Int) > cfg.SessionTimeout then
        ⟨⟨Mode.locked, now⟩, [Action.unlock, Action.lock], true⟩
      else
        ⟨⟨Mode.unlocked, now⟩, [Action.unlock], true⟩
    | Mode.unlocked =>
      if now - st.lastUnlockedTime > cfg.SessionTimeout then
        ⟨⟨Mode.locked, st.lastUnlockedTime⟩, [Action.lock], true⟩
      else
        ⟨⟨Mode.unlocked, st.lastUnlockedTime⟩, [], true⟩
  else
    match st.mode with
    | Mode.locked => ⟨⟨Mode.locked, st.lastUnlockedTime⟩, [], true⟩
    | Mode.unlocked => ⟨⟨Mode.locked, st.lastUnlockedTime⟩, [Action.lock], true⟩

theorem monitorCycle_spec (cfg : Config) (st : MState) (t : ToolOutcome) (now : Int) :
    monitorCycle cfg st t now = cycleSpec cfg st (PingBluetoothDevice cfg t) now := by
  rcases hp : PingBluetoothDevice cfg t with ⟨ir, er⟩
  rcases st with ⟨m, last⟩
  simp only [monitorCycle, cycleSpec, hp]
  cases er
  · cases ir <;> cases m <;> simp [sub_self]
    all_goals split_ifs <;> rfl
  · simp

/-- Bridge: on a tool outcome carrying a parseable RSSI value `v`,
`PingBluetoothDevice` returns the threshold classification of `v` and a
nil error. -/
theorem ping_parsed (cfg : Config) (t : ToolOutcome) (v : Int)
    (h : rssiParsed t v = true) :
    PingBluetoothDevice cfg t = ⟨classifyRssi cfg v, false⟩ := by
  cases t with
  | execError => simp [rssiParsed] at h
  | output out =>
    simp only [rssiParsed, Bool.and_eq_true, decide_eq_true_eq] at h
    obtain ⟨⟨hc, hlen⟩, hat⟩ := h
    simp only [PingBluetoothDevice, hc, if_true]
    rw [if_neg (by omega)]
    rw [hat]

/-! ## Claims -/

/-- C7: for every configuration and every sequence of readings, the
monitor's initial `lockState` is `Locked`, regardless of the first
reading: the state `MonitorBluetooth` runs from is created exactly once,
with `mode = Mode.locked`, so a run over the empty input list returns
that state, and the first cycle of any non-empty run is computed from it
whatever the first reading is. -/
theorem C7_initial_state_locked (cfg : Config) (startTime : Int)
    (t : ToolOutcome) (now : Int) (rest : List (ToolOutcome × Int)) :
    MonitorBluetooth cfg startTime [] = (⟨Mode.locked, startTime⟩, []) ∧
    MonitorBluetooth cfg startTime ((t, now) :: rest) =
      ((monitorRunFrom cfg (monitorCycle cfg ⟨Mode.locked, startTime⟩ t now).state rest).1,
       (monitorCycle cfg ⟨Mode.locked, startTime⟩ t now).actions ++
         (monitorRunFrom cfg (monitorCycle cfg ⟨Mode.locked, startTime⟩ t now).state rest).2) :=
  ⟨rfl, rfl⟩

/-- C3: for every monitor state (hence every cycle of every run) with a
session timeout in the configuration's contractual domain
(`SessionTimeout ≥ 0`, §6 of the spec), at most one actuator invocation
occurs in a cycle, and `lock` and `unlock` are never both invoked in the
same cycle. -/
theorem C3_at_most_one_actuator (cfg : Config) (st : MState) (t : ToolOutcome)
    (now : Int) (hst : 0 ≤ cfg.SessionTimeout) :
    (monitorCycle cfg st t now).actions.length ≤ 1 ∧
      ¬(Action.lock ∈ (monitorCycle cfg st t now).actions ∧
        Action.unlock ∈ (monitorCycle cfg st t now).actions) := by
  rw [monitorCycle_spec]
  generalize PingBluetoothDevice cfg t = p
  rcases p with ⟨ir, er⟩
  rcases st with ⟨m, last⟩
  cases er <;> cases ir <;> cases m <;> simp only [cycleSpec] <;> split_ifs <;>
    first
    | (exfalso; omega)
    | simp

/-- C3 witness at a concrete input. -/
theorem C3_witness :
    (monitorCycle DefaultConfig ⟨Mode.locked, 0⟩ (ToolOutcome.output lineZero) 7).actions.length ≤ 1 ∧
      ¬(Action.lock ∈ (monitorCycle DefaultConfig ⟨Mode.locked, 0⟩ (ToolOutcome.output lineZero) 7).actions ∧
        Action.unlock ∈ (monitorCycle DefaultConfig ⟨Mode.locked, 0⟩ (ToolOutcome.output lineZero) 7).actions) :=
  C3_at_most_one_actuator DefaultConfig ⟨Mode.locked, 0⟩ (ToolOutcome.output lineZero) 7 (by decide)

/-- C5: with `SessionTimeout = 30` minutes (1800000000000 ns), a state
that became `Unlocked` at time `T` and receives a `Near` reading (ping
returns `(true, nil)`) or an `Indeterminate` reading (a parsed RSSI value
strictly inside the hysteresis gap) at time `T + 31` minutes produces
exactly one `lock()` call in that cycle and ends `Locked`. -/
theorem C5_timeout_overrides_proximity (cfg : Config) (t : ToolOutcome) (T : Int)
    (hst : cfg.SessionTimeout = 1800000000000)
    (hv : PingBluetoothDevice cfg t = ⟨true, false⟩ ∨
          ∃ v, rssiParsed t v = true ∧ cfg.LockRSSI < v ∧ v < cfg.UnlockRSSI) :
    monitorCycle cfg ⟨Mode.unlocked, T⟩ t (T + 1860000000000) =
      ⟨⟨Mode.locked, T⟩, [Action.lock], true⟩ := by
  rcases hv with hnear | ⟨v, hparse, hl, hu⟩
  · rw [monitorCycle_spec, hnear]
    simp [cycleSpec]
    omega
  · have hping : PingBluetoothDevice cfg t = ⟨false, false⟩ := by
      rw [ping_parsed cfg t v hparse]
      have h1 : ¬ cfg.UnlockRSSI ≤ v := by omega
      simp [classifyRssi, h1]
    rw [monitorCycle_spec, hping]
    simp [cycleSpec]

/-- C5 witness: gap reading `-65` against the gap configuration, 31
minutes after the unlock. -/
theorem C5_witness :
    monitorCycle cfgGap ⟨Mode.unlocked, 0⟩ (ToolOutcome.output lineGap) (0 + 1860000000000) =
      ⟨⟨Mode.locked, 0⟩, [Action.lock], true⟩ :=
  C5_timeout_overrides_proximity cfgGap (ToolOutcome.output lineGap) 0 (by decide)
    (Or.inr ⟨-65, by decide, by decide, by decide⟩)

/-- C6: under the common configuration `unlockThreshold ≥ lockThreshold`,
an `InRange(v)` reading (any tool output with a parseable RSSI value `v`)
is classified unlock-eligible (`Near`) exactly when `v ≥ UnlockRSSI`;
when the two cases are disjoint (`LockRSSI < UnlockRSSI`) a value
`v ≤ LockRSSI` yields the `Far` result; and an `OutOfRange` reading — a
failed tool run or an output without the RSSI marker — always yields
`Far` (the `false` result). -/
theorem C6_classification (cfg : Config) (hlu : cfg.LockRSSI ≤ cfg.UnlockRSSI) :
    (∀ t v, rssiParsed t v = true →
        PingBluetoothDevice cfg t = ⟨classifyRssi cfg v, false⟩) ∧
    (∀ v : Int, classifyRssi cfg v = true ↔ cfg.UnlockRSSI ≤ v) ∧
    (∀ v : Int, cfg.LockRSSI < cfg.UnlockRSSI → v ≤ cfg.LockRSSI →
        classifyRssi cfg v = false) ∧
    PingBluetoothDevice cfg ToolOutcome.execError = ⟨false, false⟩ ∧
    (∀ out : String, charsHave rssiMarker out.toList = false →
        PingBluetoothDevice cfg (ToolOutcome.output out) = ⟨false, false⟩) := by
  refine ⟨fun t v h => ping_parsed cfg t v h, ?_, ?_, rfl, ?_⟩
  · intro v
    by_cases h : cfg.UnlockRSSI ≤ v
    · simp [classifyRssi, h]
    · simp [classifyRssi, h]
  · intro v hlt hle
    have h1 : ¬ cfg.UnlockRSSI ≤ v := by omega
    simp [classifyRssi, h1]
  · intro out h
    simp only [String.toList] at h
    simp [PingBluetoothDevice, h]

/-- C6 witness at the default (equal-threshold) configuration and a
concrete reading. -/
theorem C6_witness :
    PingBluetoothDevice DefaultConfig (ToolOutcome.output lineZero) =
      ⟨classifyRssi DefaultConfig 0, false⟩ :=
  (C6_classification DefaultConfig (by decide)).1 (ToolOutcome.output lineZero) 0 (by decide)

/-- C8: with a session timeout in the configuration's contractual domain
(`SessionTimeout ≥ 0`), `lastUnlockedTime` is assigned (to `now`) exactly
in a cycle that transitions `Locked → Unlocked`, and every other cycle —
sampling failures, `Far` or gap readings, cycles that stay in the same
state, timeout-forced locks — leaves it unchanged. -/
theorem C8_lastUnlockedAt_frame (cfg : Config) (st : MState) (t : ToolOutcome)
    (now : Int) (hst : 0 ≤ cfg.SessionTimeout) :
    (st.mode = Mode.locked ∧ (monitorCycle cfg st t now).state.mode = Mode.unlocked →
      (monitorCycle cfg st t now).state.lastUnlockedTime = now) ∧
    (¬(st.mode = Mode.locked ∧ (monitorCycle cfg st t now).state.mode = Mode.unlocked) →
      (monitorCycle cfg st t now).state.lastUnlockedTime = st.lastUnlockedTime) := by
  rw [monitorCycle_spec]
  generalize PingBluetoothDevice cfg t = p
  rcases p with ⟨ir, er⟩
  rcases st with ⟨m, last⟩
  cases er <;> cases ir <;> cases m <;> simp only [cycleSpec] <;> split_ifs <;>
    first
    | (exfalso; omega)
    | simp

/-- C8 witness: a concrete `Locked → Unlocked` cycle stamps `now`. -/
theorem C8_witness :
    (monitorCycle DefaultConfig ⟨Mode.locked, 0⟩ (ToolOutcome.output lineZero) 7).state.lastUnlockedTime = 7 :=
  (C8_lastUnlockedAt_frame DefaultConfig ⟨Mode.locked, 0⟩ (ToolOutcome.output lineZero) 7
    (by decide)).1 ⟨rfl, by decide⟩

/-- C10: a tool-execution failure is indistinguishable at the monitor's
interface from the device being out of range — `PingBluetoothDevice`
returns `(false, nil)` on it; the only inputs returning a non-nil error
are successful tool runs whose output contains the RSSI marker, has a
colon, and whose value text fails integer parsing; and exactly that
error path reaches the monitor's `continue` branch, which preserves the
state, performs no actuator call, and skips the `CheckInterval` sleep. -/
theorem C10_error_surface (cfg : Config) :
    PingBluetoothDevice cfg ToolOutcome.execError = ⟨false, false⟩ ∧
    (PingBluetoothDevice cfg ToolOutcome.execError).err = false ∧
    (∀ out : String, (PingBluetoothDevice cfg (ToolOutcome.output out)).err = true ↔
      (charsHave rssiMarker out.toList = true ∧
       2 ≤ (splitOnChar ':' out.toList).length ∧
       goAtoiChars (goTrimChars ((splitOnChar ':' out.toList).getD 1 [])) = none)) ∧
    (∀ st t now, (monitorCycle cfg st t now).slept = false ↔
      (PingBluetoothDevice cfg t).err = true) ∧
    (∀ st t now, (PingBluetoothDevice cfg t).err = true →
      (monitorCycle cfg st t now).state = st ∧ (monitorCycle cfg st t now).actions = []) := by
  refine ⟨rfl, rfl, ?_, ?_, ?_⟩
  · intro out
    simp only [PingBluetoothDevice, String.toList]
    by_cases hc : charsHave rssiMarker out.data
    · simp only [hc, if_true]
      by_cases hlen : (splitOnChar ':' out.data).length < 2
      · rw [if_pos hlen]
        constructor
        · intro h
          exact absurd h (by simp)
        · intro h
          exact absurd h.2.1 (by omega)
      · rw [if_neg hlen]
        cases hA : goAtoiChars (goTrimChars ((splitOnChar ':' out.data).getD 1 [])) with
        | none => simp [hc, hA]; omega
        | some v => simp [hA, hc]
    · simp only [hc, if_false]
      simp [hc]
  · intro st t now
    rw [monitorCycle_spec]
    generalize PingBluetoothDevice cfg t = p
    rcases p with ⟨ir, er⟩
    rcases st with ⟨m, last⟩
    cases er <;> cases ir <;> cases m <;> simp only [cycleSpec] <;> split_ifs <;> simp_all
  · intro st t now h
    rw [monitorCycle_spec]
    simp [cycleSpec, h]

/-- C10 witness: the parse-failure line is a state-preserving,
no-actuator cycle. -/
theorem C10_witness :
    (monitorCycle DefaultConfig ⟨Mode.unlocked, 3⟩ (ToolOutcome.output lineBad) 9).state =
      (⟨Mode.unlocked, 3⟩ : MState) ∧
    (monitorCycle DefaultConfig ⟨Mode.unlocked, 3⟩ (ToolOutcome.output lineBad) 9).actions = [] :=
  (C10_error_surface DefaultConfig).2.2.2.2 ⟨Mode.unlocked, 3⟩ (ToolOutcome.output lineBad) 9
    (by decide)

/-- C1 counterexample: a failed sampling attempt of the tool-error kind
(`cmd.Run()` error) while `Unlocked` is not a no-op — it locks.  The
claim "no change of lockState and no actuator call" is false at this
input. -/
theorem C1_counterexample :
    ¬((monitorCycle DefaultConfig ⟨Mode.unlocked, 0⟩ ToolOutcome.execError 1).state =
        (⟨Mode.unlocked, 0⟩ : MState) ∧
      (monitorCycle DefaultConfig ⟨Mode.unlocked, 0⟩ ToolOutcome.execError 1).actions = []) := by
  decide

/-- C1 amended: only the parse-failure kind of sampling failure (the one
path on which `PingBluetoothDevice` returns a non-nil error) is a no-op
cycle — state preserved, no actuator call (and no sleep).  A
tool-execution error is reported as `(false, nil)` and handled as "out of
range": it leaves a `Locked` state untouched but, while `Unlocked`,
causes exactly one `lock()` call and a transition to `Locked`. -/
theorem C1_amended_sampling_failure (cfg : Config) (st : MState) (t : ToolOutcome)
    (now : Int) :
    ((PingBluetoothDevice cfg t).err = true →
      monitorCycle cfg st t now = ⟨st, [], false⟩) ∧
    (st.mode = Mode.locked →
      monitorCycle cfg st ToolOutcome.execError now = ⟨st, [], true⟩) ∧
    (st.mode = Mode.unlocked →
      monitorCycle cfg st ToolOutcome.execError now =
        ⟨⟨Mode.locked, st.lastUnlockedTime⟩, [Action.lock], true⟩) := by
  rcases st with ⟨m, last⟩
  refine ⟨?_, ?_, ?_⟩
  · intro h
    rw [monitorCycle_spec]
    simp [cycleSpec, h]
  · intro h
    subst h
    rw [monitorCycle_spec]
    simp [cycleSpec, PingBluetoothDevice]
  · intro h
    subst h
    rw [monitorCycle_spec]
    simp [cycleSpec, PingBluetoothDevice]

/-- C1 witness: a tool error while `Locked` preserves the state. -/
theorem C1_witness :
    monitorCycle DefaultConfig ⟨Mode.locked, 5⟩ ToolOutcome.execError 9 =
      ⟨⟨Mode.locked, 5⟩, [], true⟩ :=
  (C1_amended_sampling_failure DefaultConfig ⟨Mode.locked, 5⟩ ToolOutcome.execError 9).2.1 rfl

/-- C2 counterexample: with the gap configuration
`LockRSSI = -70 < UnlockRSSI = -60`, the in-gap reading `-65` while
`Unlocked` does not leave `lockState` unchanged — the cycle locks (the
gap falls through to the `return false, nil` at bluelock.go line 129 and
is handled as out of range). -/
theorem C2_counterexample :
    rssiParsed (ToolOutcome.output lineGap) (-65) = true ∧
    cfgGap.LockRSSI < -65 ∧ (-65 : Int) < cfgGap.UnlockRSSI ∧
    (monitorCycle cfgGap ⟨Mode.unlocked, 0⟩ (ToolOutcome.output lineGap) 1).state.mode =
      Mode.locked ∧
    (monitorCycle cfgGap ⟨Mode.unlocked, 0⟩ (ToolOutcome.output lineGap) 1).actions =
      [Action.lock] := by
  decide

/-- C2 amended: an `Indeterminate` reading (parsed value strictly inside
the hysteresis gap) is sticky only in the `Locked` state, where the cycle
changes nothing and calls no actuator; while `Unlocked` it is treated
like `Far` and the cycle makes exactly one `lock()` call and transitions
to `Locked`. -/
theorem C2_amended_indeterminate (cfg : Config) (st : MState) (t : ToolOutcome)
    (now : Int) (v : Int) (hp : rssiParsed t v = true)
    (hl : cfg.LockRSSI < v) (hu : v < cfg.UnlockRSSI) :
    (st.mode = Mode.locked → monitorCycle cfg st t now = ⟨st, [], true⟩) ∧
    (st.mode = Mode.unlocked → monitorCycle cfg st t now =
      ⟨⟨Mode.locked, st.lastUnlockedTime⟩, [Action.lock], true⟩) := by
  have hping : PingBluetoothDevice cfg t = ⟨false, false⟩ := by
    rw [ping_parsed cfg t v hp]
    have h1 : ¬ cfg.UnlockRSSI ≤ v := by omega
    simp [classifyRssi, h1]
  rcases st with ⟨m, last⟩
  constructor
  · intro h
    subst h
    rw [monitorCycle_spec, hping]
    simp [cycleSpec]
  · intro h
    subst h
    rw [monitorCycle_spec, hping]
    simp [cycleSpec]

/-- C2 witness: the same in-gap reading while `Locked` changes nothing. -/
theorem C2_witness :
    monitorCycle cfgGap ⟨Mode.locked, 4⟩ (ToolOutcome.output lineGap) 9 =
      ⟨⟨Mode.locked, 4⟩, [], true⟩ :=
  (C2_amended_indeterminate cfgGap ⟨Mode.locked, 4⟩ (ToolOutcome.output lineGap) 9 (-65)
    (by decide) (by decide) (by decide)).1 rfl

/-- C4 counterexample: with `SessionTimeout = 0` and the device near
(ping `(true, nil)`), an `Unlocked` session is force-locked by the
timeout rule as soon as any time has elapsed — the claim that a zero
timeout disables the forced lock is false at this input. -/
theorem C4_counterexample :
    cfgZeroTimeout.SessionTimeout = 0 ∧
    PingBluetoothDevice cfgZeroTimeout (ToolOutcome.output lineZero) = ⟨true, false⟩ ∧
    (monitorCycle cfgZeroTimeout ⟨Mode.unlocked, 0⟩ (ToolOutcome.output lineZero) 1).state.mode =
      Mode.locked ∧
    (monitorCycle cfgZeroTimeout ⟨Mode.unlocked, 0⟩ (ToolOutcome.output lineZero) 1).actions =
      [Action.lock] := by
  decide

/-- C4 amended: the forced-lock rule has no `SessionTimeout > 0` guard —
while `Unlocked` with the device near, it fires whenever
`now - lastUnlockedAt > SessionTimeout`, so `SessionTimeout = 0` means
"lock after any positive elapsed time", not "no timeout"; and
`InitializeConfig` replaces a zero `SessionTimeout` with the 30-minute
default rather than keeping it disabled. -/
theorem C4_amended_timeout_rule (cfg : Config) (st : MState) (t : ToolOutcome)
    (now : Int) :
    (st.mode = Mode.unlocked → PingBluetoothDevice cfg t = ⟨true, false⟩ →
      now - st.lastUnlockedTime > cfg.SessionTimeout →
      monitorCycle cfg st t now =
        ⟨⟨Mode.locked, st.lastUnlockedTime⟩, [Action.lock], true⟩) ∧
    (InitializeConfig cfg).SessionTimeout =
      (if cfg.SessionTimeout = 0 then defaultSessionTimeout else cfg.SessionTimeout) ∧
    defaultSessionTimeout = 1800000000000 := by
  refine ⟨?_, rfl, rfl⟩
  rcases st with ⟨m, last⟩
  intro hm hping hgt
  subst hm
  rw [monitorCycle_spec, hping]
  simp [cycleSpec, hgt]

/-- C4 witness at `SessionTimeout = 0`. -/
theorem C4_witness :
    monitorCycle cfgZeroTimeout ⟨Mode.unlocked, 2⟩ (ToolOutcome.output lineZero) 5 =
      ⟨⟨Mode.locked, 2⟩, [Action.lock], true⟩ :=
  (C4_amended_timeout_rule cfgZeroTimeout ⟨Mode.unlocked, 2⟩ (ToolOutcome.output lineZero) 5).1
    rfl (by decide) (by decide)

/-- C9 counterexample: a `Near` verdict (ping `(true, nil)`) while
already `Unlocked` does not always produce zero actuator calls — once the
session timeout has expired, the cycle calls `lock()`. -/
theorem C9_counterexample :
    PingBluetoothDevice DefaultConfig (ToolOutcome.output lineZero) = ⟨true, false⟩ ∧
    (monitorCycle DefaultConfig ⟨Mode.unlocked, 0⟩ (ToolOutcome.output lineZero)
        1860000000000).actions = [Action.lock] := by
  decide

/-- C9 amended: repeated verdicts matching the current state produce zero
actuator calls and leave the state exactly unchanged, over any number of
cycles, provided (in the `Unlocked` case) the session timeout has not
expired at any of those cycles; `Far`-while-`Locked` cycles are
unconditionally silent. -/
theorem C9_amended_idempotence (cfg : Config) (st : MState)
    (inputs : List (ToolOutcome × Int)) :
    (st.mode = Mode.locked →
      (∀ p ∈ inputs, PingBluetoothDevice cfg p.1 = ⟨false, false⟩) →
      monitorRunFrom cfg st inputs = (st, [])) ∧
    (st.mode = Mode.unlocked →
      (∀ p ∈ inputs, PingBluetoothDevice cfg p.1 = ⟨true, false⟩ ∧
        p.2 - st.lastUnlockedTime ≤ cfg.SessionTimeout) →
      monitorRunFrom cfg st inputs = (st, [])) := by
  rcases st with ⟨m, last⟩
  induction inputs with
  | nil => exact ⟨fun _ _ => rfl, fun _ _ => rfl⟩
  | cons hd tl ih =>
    obtain ⟨t, now⟩ := hd
    constructor
    · intro hm hall
      have hc : monitorCycle cfg ⟨m, last⟩ t now = ⟨⟨m, last⟩, [], true⟩ := by
        subst hm
        rw [monitorCycle_spec, hall (t, now) (List.mem_cons_self _ _)]
        simp [cycleSpec]
      have hrest := ih.1 hm (fun p hp => hall p (List.mem_cons_of_mem _ hp))
      simp [monitorRunFrom, hc, hrest]
    · intro hm hall
      have hc : monitorCycle cfg ⟨m, last⟩ t now = ⟨⟨m, last⟩, [], true⟩ := by
        subst hm
        rw [monitorCycle_spec, (hall (t, now) (List.mem_cons_self _ _)).1]
        have hbound := (hall (t, now) (List.mem_cons_self _ _)).2
        have hng : ¬(now - last > cfg.SessionTimeout) := by
          simp only [MState.lastUnlockedTime] at hbound
          omega
        simp [cycleSpec, hng]
      have hrest := ih.2 hm (fun p hp => hall p (List.mem_cons_of_mem _ hp))
      simp [monitorRunFrom, hc, hrest]

/-- C9 witness: two repeated `Far`-while-`Locked` cycles are silent. -/
theorem C9_witness :
    monitorRunFrom cfgGap ⟨Mode.locked, 0⟩
      [(ToolOutcome.execError, 5), (ToolOutcome.execError, 9)] =
      (⟨Mode.locked, 0⟩, []) :=
  (C9_amended_idempotence cfgGap ⟨Mode.locked, 0⟩
    [(ToolOutcome.execError, 5), (ToolOutcome.execError, 9)]).1 rfl (by decide)

end Bluelock
